import Mathlib

/-!
Formal model of the EcoPulseBackend account-lifecycle controller
(`controllers/accountController.js`) and its notification subsystem
(`utils/emailService.js`), as a shallow embedding in Lean 4.

Conventions of the embedding:
* The MongoDB user collection is a `List UserRec`; `findOne` is `List.find?`
  (first match), `updateOne({_id})` is a map replacing the matched record.
* JavaScript `Date` values are `Int` milliseconds since the epoch; `Date.now()`
  is an explicit `now : Int` parameter sampled once per operation.
* `crypto.randomBytes(32)` is an explicit `randomBytes : List Nat` parameter
  (one `Nat` per byte); `.toString("hex")` is `hexEncode`.
* JavaScript string falsiness (`!s`) is the test `s = ""`; optional document
  fields are `Option` values and `!!field` is `jsTruthyStr`.
* HTTP responses are plain structures; the `error=` query parameter of the
  redirect URL built by the controller is kept as the `errorParam` field.
* Emails handed to the mail service are recorded as `Notif` values in the
  order the controller issues them (delivery failure of any of them does not
  change the controller result, so only the issuing order is modelled).
-/

namespace EcoPulse

/-- The character class removed by JavaScript `String.prototype.trim` (the
common ASCII whitespace characters appearing in practice). -/
def isJsWhitespace (c : Char) : Bool :=
  c = ' ' || c = '\t' || c = '\n' || c = '\r'

/-- Trim on character lists: drop whitespace from both ends. -/
def trimChars (l : List Char) : List Char :=
  ((l.dropWhile isJsWhitespace).reverse.dropWhile isJsWhitespace).reverse

/-- Model of JavaScript `token.trim()`. -/
def jsTrim (s : String) : String :=
  String.mk (trimChars s.data)

/-- Model of JavaScript truthiness of an optional string field
(`!!field`): present and non-empty. -/
def jsTruthyStr : Option String → Bool
  | some s => s != ""
  | none => false

/-- One lowercase hex digit. -/
def hexDigit (n : Nat) : Char :=
  if n < 10 then Char.ofNat (48 + n) else Char.ofNat (87 + n)

/-- The two hex characters of one byte. -/
def hexByteChars (b : Nat) : List Char :=
  [hexDigit (b / 16), hexDigit (b % 16)]

/-- Model of `Buffer.toString("hex")` applied to a byte list, as used by
`crypto.randomBytes(32).toString("hex")`. -/
def hexEncode (bytes : List Nat) : String :=
  String.mk ((bytes.map hexByteChars).flatten)

/-- A document of the `users` collection, restricted to the fields the
account-lifecycle controller reads or writes. -/
structure UserRec where
  id : String
  email : String
  role : String
  isVerified : Bool
  isDeactivated : Bool
  isAutoDeactivated : Bool
  password : Option String
  googleId : Option String
  reactivationToken : Option String
  reactivationTokenExpires : Option Int
  reactivationAttempts : Option Nat
  lastReactivationAttempt : Option Int
  lockoutUntil : Option Int
  deletedAt : Option Int
  autoDeactivatedAt : Option Int
  lastLogin : Option Int
  lastActivity : Option Int
deriving Repr, DecidableEq

/-- An email handed to the mail service by the controller. -/
inductive Notif where
  | reactivationTokenEmail (email : String) (token : String)
  | adminNotif (email : String) (event : String)
  | reactivationConfirmationEmail (email : String)
deriving Repr, DecidableEq

/-- Whether a notification is the admin notification. -/
def Notif.isAdminNotif : Notif → Bool
  | .adminNotif _ _ => true
  | _ => false

/-- The result of one controller call: HTTP response, the user collection
after the call, and the emails issued (in order). -/
structure Outcome (R : Type) where
  resp : R
  store : List UserRec
  sent : List Notif
deriving Repr, DecidableEq

/-- A `{status, success, message}` JSON response. -/
structure SimpleResponse where
  status : Nat
  success : Bool
  message : String
deriving Repr, DecidableEq

/-- The response of `reactivateAccount`: `errorParam` is the `error=` query
parameter of the `redirectUrl` (none on success). -/
structure ReactResponse where
  status : Nat
  success : Bool
  message : String
  errorParam : Option String
deriving Repr, DecidableEq

/-- The user record written by the successful branch of `reactivateAccount`
(the single `updateOne` with its `$set` and `$unset` clauses). -/
def reactivatedUser (u : UserRec) (now : Int) : UserRec :=
  { u with
    isDeactivated := false
    isAutoDeactivated := false
    lastActivity := some now
    lastLogin := some now
    deletedAt := none
    autoDeactivatedAt := none
    reactivationToken := none
    reactivationTokenExpires := none
    lastReactivationAttempt := none
    reactivationAttempts := none }

/-- The success branch of `reactivateAccount`: one update of the matched
record, then the confirmation email and the admin notification. -/
def reactivateSuccess (store : List UserRec) (rawUser : UserRec) (now : Int) :
    Outcome ReactResponse :=
  let updated := reactivatedUser rawUser now
  ⟨⟨200, true, "Account reactivated successfully", none⟩,
   store.map (fun v => if v.id == rawUser.id then updated else v),
   [Notif.reactivationConfirmationEmail rawUser.email,
    Notif.adminNotif rawUser.email "account_reactivated"]⟩

/-- The 400 response of `reactivateAccount` when the token is missing. -/
def missingTokenOutcome (store : List UserRec) : Outcome ReactResponse :=
  ⟨⟨400, false, "Reactivation token is required", some "missing_token"⟩, store, []⟩

/-- The part of `reactivateAccount` after the token has been cleaned:
raw `findOne({reactivationToken})`, expiry check, then the update. -/
def reactivateLookup (store : List UserRec) (ct : String) (now : Int) :
    Outcome ReactResponse :=
  match store.find? (fun u => u.reactivationToken == some ct) with
  | none =>
      ⟨⟨400, false, "Invalid or expired reactivation token", some "invalid_token"⟩,
       store, []⟩
  | some rawUser =>
      match rawUser.reactivationTokenExpires with
      | some exp =>
          if exp < now then
            ⟨⟨400, false, "Reactivation token has expired", some "expired_token"⟩,
             store, []⟩
          else reactivateSuccess store rawUser now
      | none => reactivateSuccess store rawUser now

/-- Model of `reactivateAccount` (`accountController.js`): the submitted
token is trimmed (`token ? token.trim() : null`), a missing/blank token is a
400, otherwise the lookup runs on the cleaned token. -/
def reactivateAccount (store : List UserRec) (token : String) (now : Int) :
    Outcome ReactResponse :=
  let cleanToken : Option String := if token = "" then none else some (jsTrim token)
  match cleanToken with
  | none => missingTokenOutcome store
  | some ct =>
      if ct = "" then missingTokenOutcome store
      else reactivateLookup store ct now

/- ### Trim lemmas -/

theorem dropWhile_ws_append (w l : List Char)
    (hw : ∀ c ∈ w, isJsWhitespace c) :
    (w ++ l).dropWhile isJsWhitespace = l.dropWhile isJsWhitespace := by
  rw [List.dropWhile_append]
  simp [List.dropWhile_eq_nil_iff.mpr hw]

theorem trimChars_ws_left (w l : List Char)
    (hw : ∀ c ∈ w, isJsWhitespace c) :
    trimChars (w ++ l) = trimChars l := by
  unfold trimChars
  rw [dropWhile_ws_append w l hw]

theorem trimChars_ws_right (l w : List Char)
    (hw : ∀ c ∈ w, isJsWhitespace c) :
    trimChars (l ++ w) = trimChars l := by
  unfold trimChars
  rw [List.dropWhile_append]
  by_cases h : (l.dropWhile isJsWhitespace).isEmpty
  · have hnil : l.dropWhile isJsWhitespace = [] := by
      cases hd : l.dropWhile isJsWhitespace with
      | nil => rfl
      | cons a t => rw [hd] at h; simp at h
    rw [if_pos h, hnil, List.dropWhile_eq_nil_iff.mpr hw]
  · rw [if_neg h, List.reverse_append]
    rw [dropWhile_ws_append w.reverse (l.dropWhile isJsWhitespace).reverse
      (by intro c hc; exact hw c (List.mem_reverse.mp hc))]

theorem jsTrim_padded (pre t post : String)
    (hpre : ∀ c ∈ pre.data, isJsWhitespace c)
    (hpost : ∀ c ∈ post.data, isJsWhitespace c) :
    jsTrim (pre ++ t ++ post) = jsTrim t := by
  unfold jsTrim
  have hdata : (pre ++ t ++ post).data = pre.data ++ (t.data ++ post.data) := by
    rw [String.data_append, String.data_append, List.append_assoc]
  rw [hdata, trimChars_ws_left pre.data _ hpre, trimChars_ws_right t.data post.data hpost]

theorem jsTrim_empty : jsTrim "" = "" := rfl

/-- `reactivateAccount` only looks at the trimmed token: its behaviour is the
lookup on `jsTrim token`, with the missing-token 400 exactly when the trim is
empty. -/
theorem reactivateAccount_normal (store : List UserRec) (token : String) (now : Int) :
    reactivateAccount store token now =
      (if jsTrim token = "" then missingTokenOutcome store
       else reactivateLookup store (jsTrim token) now) := by
  unfold reactivateAccount
  by_cases h : token = ""
  · subst h; simp [jsTrim_empty]
  · simp [h]

/- ### Sample data used by witnesses and counterexamples -/

/-- A fixed reference time (milliseconds since the epoch). -/
def t0 : Int := 1700000000000

/-- A fixed 32-byte "random" value standing for one `crypto.randomBytes(32)`
draw. -/
def sampleBytes : List Nat := List.replicate 32 171

/-- An active, verified user. -/
def sampleActiveUser : UserRec :=
  { id := "u1", email := "user@example.com", role := "user", isVerified := true,
    isDeactivated := false, isAutoDeactivated := false, password := some "hash",
    googleId := none, reactivationToken := none, reactivationTokenExpires := none,
    reactivationAttempts := none, lastReactivationAttempt := none, lockoutUntil := none,
    deletedAt := none, autoDeactivatedAt := none, lastLogin := none, lastActivity := none }

/-- A manually deactivated user whose reactivation token has expired. -/
def expiredTokenUser : UserRec :=
  { sampleActiveUser with
    id := "u9"
    email := "expired@example.com"
    isDeactivated := true
    reactivationToken := some "tok123"
    reactivationTokenExpires := some (t0 - 1000)
    deletedAt := some (t0 - 5000) }

/- ### Claims C10 and C4 -/

/-- Claim C10: `reactivateAccount` is invariant under leading/trailing
whitespace around the submitted token — the padded and the unpadded calls
produce the same response, the same store and the same emails, because the
token is trimmed before the lookup. -/
theorem reactivate_trim_invariant (store : List UserRec) (now : Int)
    (t pre post : String)
    (hpre : ∀ c ∈ pre.data, isJsWhitespace c)
    (hpost : ∀ c ∈ post.data, isJsWhitespace c) :
    reactivateAccount store (pre ++ t ++ post) now = reactivateAccount store t now := by
  rw [reactivateAccount_normal, reactivateAccount_normal,
    jsTrim_padded pre t post hpre hpost]

/-- Witness for C10 at a concrete padded token. -/
theorem reactivate_trim_invariant_witness :
    reactivateAccount [expiredTokenUser] ("  " ++ "tok123" ++ " ") t0 =
      reactivateAccount [expiredTokenUser] "tok123" t0 :=
  reactivate_trim_invariant [expiredTokenUser] t0 "tok123" "  " " "
    (by decide) (by decide)

/-- Claim C4: with a non-blank token, `reactivateAccount` answers
`invalid_token` when no record holds the (trimmed) token and the distinct
error `expired_token` when the matched record's `reactivationTokenExpires`
is earlier than `now`; on both paths the store is returned unchanged and no
email is sent. -/
theorem reactivate_invalid_vs_expired (store : List UserRec) (token : String)
    (now : Int) (hct : jsTrim token ≠ "") :
    (store.find? (fun u => u.reactivationToken == some (jsTrim token)) = none →
       reactivateAccount store token now =
         ⟨⟨400, false, "Invalid or expired reactivation token", some "invalid_token"⟩,
          store, []⟩) ∧
    (∀ u exp,
       store.find? (fun u => u.reactivationToken == some (jsTrim token)) = some u →
       u.reactivationTokenExpires = some exp → exp < now →
       reactivateAccount store token now =
         ⟨⟨400, false, "Reactivation token has expired", some "expired_token"⟩,
          store, []⟩) ∧
    (some "expired_token" : Option String) ≠ some "invalid_token" := by
  rw [reactivateAccount_normal]
  refine ⟨?_, ?_, by decide⟩
  · intro hfind
    rw [if_neg hct]
    unfold reactivateLookup
    rw [hfind]
  · intro u exp hfind hexp hlt
    rw [if_neg hct]
    unfold reactivateLookup
    rw [hfind]
    simp [hexp, hlt]

/-- Witness for C4: a concrete expired token takes the `expired_token` path
and leaves the store untouched. -/
theorem reactivate_invalid_vs_expired_witness :
    reactivateAccount [expiredTokenUser] "tok123" t0 =
      ⟨⟨400, false, "Reactivation token has expired", some "expired_token"⟩,
       [expiredTokenUser], []⟩ :=
  (reactivate_invalid_vs_expired [expiredTokenUser] "tok123" t0 (by decide)).2.1
    expiredTokenUser (t0 - 1000) (by decide) rfl (by decide)

/- ### Deactivation (self-service and admin) and reactivation requests -/

/-- The user record written by the deactivation flows: status flag, deletion
timestamp, fresh token and its 90-day expiry, in one `save()`. -/
def deactivatedUser (u : UserRec) (token : String) (now : Int) : UserRec :=
  { u with
    isDeactivated := true
    deletedAt := some now
    reactivationToken := some token
    reactivationTokenExpires := some (now + 90 * 24 * 60 * 60 * 1000) }

def deactivateSuccessMsg : String :=
  "Account deactivated successfully. A reactivation link has been sent to your email."

/-- Model of `deactivateAccount` (`accountController.js`). -/
def deactivateAccount (store : List UserRec) (userId : String)
    (randomBytes : List Nat) (now : Int) : Outcome SimpleResponse :=
  if userId = "" then ⟨⟨400, false, "User ID is required"⟩, store, []⟩
  else
    match store.find? (fun u => u.id == userId) with
    | none => ⟨⟨404, false, "User not found"⟩, store, []⟩
    | some user =>
        if user.isDeactivated || user.isAutoDeactivated then
          ⟨⟨400, false, "Account is already deactivated"⟩, store, []⟩
        else
          let reactivationToken := hexEncode randomBytes
          let user2 := deactivatedUser user reactivationToken now
          ⟨⟨200, true, deactivateSuccessMsg⟩,
           store.map (fun v => if v.id == user.id then user2 else v),
           [Notif.reactivationTokenEmail user.email reactivationToken,
            Notif.adminNotif user.email "account_deactivated"]⟩

def adminForbiddenMsg : String :=
  "You don\x27t have permission to perform this action"

def adminDeactivateSuccessMsg : String :=
  "User account deactivated successfully. A reactivation link has been sent to their email."

/-- Model of `adminDeactivateUser` (`accountController.js`): role gate first,
then the same lookup/flag checks and the same single write as
`deactivateAccount`, but it only sends the reactivation-token email (there is
no `sendAdminNotification` call on this path). -/
def adminDeactivateUser (store : List UserRec) (callerRole : String)
    (userId : String) (randomBytes : List Nat) (now : Int) : Outcome SimpleResponse :=
  if callerRole ≠ "admin" then ⟨⟨403, false, adminForbiddenMsg⟩, store, []⟩
  else if userId = "" then ⟨⟨400, false, "User ID is required"⟩, store, []⟩
  else
    match store.find? (fun u => u.id == userId) with
    | none => ⟨⟨404, false, "User not found"⟩, store, []⟩
    | some user =>
        if user.isDeactivated || user.isAutoDeactivated then
          ⟨⟨400, false, "Account is already deactivated"⟩, store, []⟩
        else
          let reactivationToken := hexEncode randomBytes
          let user2 := deactivatedUser user reactivationToken now
          ⟨⟨200, true, adminDeactivateSuccessMsg⟩,
           store.map (fun v => if v.id == user.id then user2 else v),
           [Notif.reactivationTokenEmail user.email reactivationToken]⟩

def requestReactivationAbsentMsg : String :=
  "If your account exists and is deactivated, a reactivation email will be sent."

def requestReactivationPresentMsg : String :=
  "If your account exists and is deactivated, a reactivation email has been sent."

/-- Model of `requestReactivation` (`accountController.js`): raw lookup of a
deactivated/auto-deactivated record by (exact) email; if found, rotate the
token, bump the attempt counter and email the token. -/
def requestReactivation (store : List UserRec) (email : String)
    (randomBytes : List Nat) (now : Int) : Outcome SimpleResponse :=
  if email = "" then ⟨⟨400, false, "Email is required"⟩, store, []⟩
  else
    match store.find? (fun u => u.email == email &&
        (u.isDeactivated || u.isAutoDeactivated)) with
    | none => ⟨⟨200, true, requestReactivationAbsentMsg⟩, store, []⟩
    | some user =>
        let reactivationToken := hexEncode randomBytes
        let user2 := { user with
          reactivationToken := some reactivationToken
          reactivationTokenExpires := some (now + 90 * 24 * 60 * 60 * 1000)
          lastReactivationAttempt := some now
          reactivationAttempts := some (user.reactivationAttempts.getD 0 + 1) }
        ⟨⟨200, true, requestReactivationPresentMsg⟩,
         store.map (fun v => if v.id == user.id then user2 else v),
         [Notif.reactivationTokenEmail user.email reactivationToken]⟩

/-- A deactivated user with the same email as `sampleActiveUser`. -/
def sampleDeactivatedUser : UserRec :=
  { sampleActiveUser with
    id := "u2"
    isDeactivated := true
    reactivationToken := some "oldtok"
    reactivationTokenExpires := some (t0 + 1000)
    deletedAt := some (t0 - 5000) }

/- ### Hex-encoding length -/

theorem hexEncode_data (bytes : List Nat) :
    (hexEncode bytes).data = (bytes.map hexByteChars).flatten := rfl

theorem hexEncode_length (bytes : List Nat) :
    (hexEncode bytes).length = 2 * bytes.length := by
  show ((bytes.map hexByteChars).flatten).length = 2 * bytes.length
  induction bytes with
  | nil => rfl
  | cons b t ih =>
      simp only [List.map_cons, List.flatten_cons, List.length_append,
        List.length_cons, List.length_nil, hexByteChars]
      omega

/- ### Claim C5 -/

/-- Claim C5: on an existing user with neither deactivation flag set,
`deactivateAccount` returns success and performs the single write that sets
`isDeactivated`, stores the hex encoding of the 32 random bytes (a 64-hex-char,
256-bit token) and the expiry `now + 90 days`; a missing user is a 404 and an
already-deactivated user a 400, both leaving the store unchanged and sending
nothing. -/
theorem deactivate_spec (store : List UserRec) (userId : String)
    (randomBytes : List Nat) (now : Int)
    (hid : userId ≠ "") (hlen : randomBytes.length = 32) :
    (store.find? (fun u => u.id == userId) = none →
       deactivateAccount store userId randomBytes now =
         ⟨⟨404, false, "User not found"⟩, store, []⟩) ∧
    (∀ u, store.find? (fun u => u.id == userId) = some u →
       (u.isDeactivated || u.isAutoDeactivated) = true →
       deactivateAccount store userId randomBytes now =
         ⟨⟨400, false, "Account is already deactivated"⟩, store, []⟩) ∧
    (∀ u, store.find? (fun u => u.id == userId) = some u →
       (u.isDeactivated || u.isAutoDeactivated) = false →
       deactivateAccount store userId randomBytes now =
         ⟨⟨200, true, deactivateSuccessMsg⟩,
          store.map (fun v => if v.id == u.id then
            deactivatedUser u (hexEncode randomBytes) now else v),
          [Notif.reactivationTokenEmail u.email (hexEncode randomBytes),
           Notif.adminNotif u.email "account_deactivated"]⟩ ∧
       (deactivatedUser u (hexEncode randomBytes) now).isDeactivated = true ∧
       (deactivatedUser u (hexEncode randomBytes) now).reactivationToken =
         some (hexEncode randomBytes) ∧
       (deactivatedUser u (hexEncode randomBytes) now).reactivationTokenExpires =
         some (now + 90 * 24 * 60 * 60 * 1000) ∧
       (hexEncode randomBytes).length = 64) := by
  refine ⟨?_, ?_, ?_⟩
  · intro hfind
    unfold deactivateAccount
    rw [if_neg hid, hfind]
  · intro u hfind hflag
    unfold deactivateAccount
    rw [if_neg hid, hfind]
    simp [hflag]
  · intro u hfind hflag
    unfold deactivateAccount
    rw [if_neg hid, hfind]
    refine ⟨by simp [hflag], rfl, rfl, rfl, ?_⟩
    rw [hexEncode_length, hlen]

/-- Witness for C5 on a concrete active user. -/
theorem deactivate_spec_witness :
    deactivateAccount [sampleActiveUser] "u1" sampleBytes t0 =
      ⟨⟨200, true, deactivateSuccessMsg⟩,
       [sampleActiveUser].map (fun v => if v.id == sampleActiveUser.id then
         deactivatedUser sampleActiveUser (hexEncode sampleBytes) t0 else v),
       [Notif.reactivationTokenEmail sampleActiveUser.email (hexEncode sampleBytes),
        Notif.adminNotif sampleActiveUser.email "account_deactivated"]⟩ ∧
    (hexEncode sampleBytes).length = 64 := by
  have h := (deactivate_spec [sampleActiveUser] "u1" sampleBytes t0
    (by decide) (by decide)).2.2 sampleActiveUser (by decide) rfl
  exact ⟨h.1, h.2.2.2.2⟩

/- ### Claim C8 -/

/-- Claim C8 (counterexample to "same notifications"): at a concrete active
user, the admin flow issues a different email list than the self-service flow
(it skips the admin notification). -/
theorem adminDeactivate_missing_admin_notification :
    (adminDeactivateUser [sampleActiveUser] "admin" "u1" sampleBytes t0).sent ≠
      (deactivateAccount [sampleActiveUser] "u1" sampleBytes t0).sent := by
  decide

/-- Claim C8 (amended): a non-admin caller gets a 403 (distinct from 400 and
404) with no state change and no email; an admin caller gets the same store
mutation, status and success flag as `deactivateAccount`, but only the
notifications of `deactivateAccount` that are not the admin notification. -/
theorem adminDeactivate_vs_deactivate (store : List UserRec)
    (callerRole userId : String) (randomBytes : List Nat) (now : Int) :
    (callerRole ≠ "admin" →
       adminDeactivateUser store callerRole userId randomBytes now =
         ⟨⟨403, false, adminForbiddenMsg⟩, store, []⟩) ∧
    ((403 : Nat) ≠ 400 ∧ (403 : Nat) ≠ 404) ∧
    (callerRole = "admin" →
       (adminDeactivateUser store callerRole userId randomBytes now).store =
         (deactivateAccount store userId randomBytes now).store ∧
       (adminDeactivateUser store callerRole userId randomBytes now).resp.status =
         (deactivateAccount store userId randomBytes now).resp.status ∧
       (adminDeactivateUser store callerRole userId randomBytes now).resp.success =
         (deactivateAccount store userId randomBytes now).resp.success ∧
       (adminDeactivateUser store callerRole userId randomBytes now).sent =
         (deactivateAccount store userId randomBytes now).sent.filter
           (fun n => !n.isAdminNotif)) := by
  refine ⟨?_, ⟨by decide, by decide⟩, ?_⟩
  · intro h
    unfold adminDeactivateUser
    rw [if_pos h]
  · intro h
    subst h
    unfold adminDeactivateUser deactivateAccount
    have hadm : ¬ ("admin" : String) ≠ "admin" := fun hh => hh rfl
    rw [if_neg hadm]
    by_cases hid : userId = ""
    · rw [if_pos hid, if_pos hid]
      exact ⟨rfl, rfl, rfl, rfl⟩
    · rw [if_neg hid, if_neg hid]
      cases hfind : store.find? (fun u => u.id == userId) with
      | none => exact ⟨rfl, rfl, rfl, rfl⟩
      | some u =>
          by_cases hb : (u.isDeactivated || u.isAutoDeactivated) = true
          · simp [hb]
          · have hb2 : (u.isDeactivated || u.isAutoDeactivated) = false := by
              simpa using hb
            simp [hb2, Notif.isAdminNotif]

/-- Witness for C8 (amended) at a concrete admin call. -/
theorem adminDeactivate_vs_deactivate_witness :
    (adminDeactivateUser [sampleActiveUser] "admin" "u1" sampleBytes t0).sent =
      (deactivateAccount [sampleActiveUser] "u1" sampleBytes t0).sent.filter
        (fun n => !n.isAdminNotif) :=
  ((adminDeactivate_vs_deactivate [sampleActiveUser] "admin" "u1" sampleBytes
    t0).2.2 rfl).2.2.2

/- ### Claim C1 -/

/-- Claim C1 (code bug): `requestReactivation` answers HTTP 200 with
`success = true` both when a matching deactivated account exists and when it
does not — but the two generic messages differ ("will be sent" vs "has been
sent"), so the two runs are distinguishable from the response body, despite
the code comment "For security, don\x27t reveal if user exists or not". -/
theorem requestReactivation_enumeration_leak :
    (requestReactivation [] "user@example.com" sampleBytes t0).resp.status = 200 ∧
    (requestReactivation [sampleDeactivatedUser] "user@example.com"
      sampleBytes t0).resp.status = 200 ∧
    (requestReactivation [] "user@example.com" sampleBytes t0).resp.success = true ∧
    (requestReactivation [sampleDeactivatedUser] "user@example.com"
      sampleBytes t0).resp.success = true ∧
    (requestReactivation [] "user@example.com" sampleBytes t0).resp.message ≠
      (requestReactivation [sampleDeactivatedUser] "user@example.com"
        sampleBytes t0).resp.message := by
  decide

/- ### Claim C6 -/

/-- A deactivated user holding a live (unexpired) reactivation token. -/
def reactivatableUser : UserRec :=
  { sampleActiveUser with
    id := "u4"
    email := "react@example.com"
    isDeactivated := true
    reactivationToken := some "tok456"
    reactivationTokenExpires := some (t0 + 1000)
    deletedAt := some (t0 - 5000) }

/-- Claim C6: a successful `reactivateAccount` is one update that flips the
flags back to active and simultaneously clears the token, its expiry, the
attempt counters and the deletion timestamps while setting
`lastLogin`/`lastActivity`; afterwards the same token (being the only copy in
the store) no longer matches any record, so a second call fails with
`invalid_token` and changes nothing. -/
theorem reactivate_single_use (store : List UserRec) (token : String)
    (now now2 : Int) (u : UserRec)
    (hct : jsTrim token ≠ "")
    (hfind : store.find? (fun v => v.reactivationToken == some (jsTrim token)) = some u)
    (hexp : ∀ e, u.reactivationTokenExpires = some e → ¬ e < now)
    (huniq : ∀ v ∈ store, v.reactivationToken = some (jsTrim token) → v.id = u.id) :
    reactivateAccount store token now =
      ⟨⟨200, true, "Account reactivated successfully", none⟩,
       store.map (fun v => if v.id == u.id then reactivatedUser u now else v),
       [Notif.reactivationConfirmationEmail u.email,
        Notif.adminNotif u.email "account_reactivated"]⟩ ∧
    (reactivatedUser u now).isDeactivated = false ∧
    (reactivatedUser u now).isAutoDeactivated = false ∧
    (reactivatedUser u now).reactivationToken = none ∧
    (reactivatedUser u now).reactivationTokenExpires = none ∧
    (reactivatedUser u now).reactivationAttempts = none ∧
    (reactivatedUser u now).lastReactivationAttempt = none ∧
    (reactivatedUser u now).lastLogin = some now ∧
    (reactivatedUser u now).lastActivity = some now ∧
    reactivateAccount
        (store.map (fun v => if v.id == u.id then reactivatedUser u now else v))
        token now2 =
      ⟨⟨400, false, "Invalid or expired reactivation token", some "invalid_token"⟩,
       store.map (fun v => if v.id == u.id then reactivatedUser u now else v), []⟩ := by
  have hsucc : reactivateAccount store token now = reactivateSuccess store u now := by
    rw [reactivateAccount_normal, if_neg hct]
    unfold reactivateLookup
    rw [hfind]
    cases he : u.reactivationTokenExpires with
    | none => simp [he]
    | some e => simp [he, hexp e he]
  have hnone : (store.map (fun v => if v.id == u.id then reactivatedUser u now else v)).find?
      (fun v => v.reactivationToken == some (jsTrim token)) = none := by
    apply List.find?_eq_none.mpr
    intro x hx
    simp only [List.mem_map] at hx
    obtain ⟨v, hv, rfl⟩ := hx
    by_cases hvid : (v.id == u.id) = true
    · rw [if_pos hvid]
      simp [reactivatedUser]
    · rw [if_neg hvid]
      intro hcontra
      exact hvid (beq_iff_eq.mpr (huniq v hv (beq_iff_eq.mp hcontra)))
  refine ⟨by rw [hsucc]; rfl, rfl, rfl, rfl, rfl, rfl, rfl, rfl, rfl, ?_⟩
  rw [reactivateAccount_normal, if_neg hct]
  unfold reactivateLookup
  rw [hnone]

/-- Witness for C6 on a concrete store with a single token holder. -/
theorem reactivate_single_use_witness :
    reactivateAccount [reactivatableUser] "tok456" t0 =
      ⟨⟨200, true, "Account reactivated successfully", none⟩,
       [reactivatableUser].map (fun v => if v.id == reactivatableUser.id then
          reactivatedUser reactivatableUser t0 else v),
       [Notif.reactivationConfirmationEmail reactivatableUser.email,
        Notif.adminNotif reactivatableUser.email "account_reactivated"]⟩ ∧
    reactivateAccount
        ([reactivatableUser].map (fun v => if v.id == reactivatableUser.id then
            reactivatedUser reactivatableUser t0 else v)) "tok456" t0 =
      ⟨⟨400, false, "Invalid or expired reactivation token", some "invalid_token"⟩,
       [reactivatableUser].map (fun v => if v.id == reactivatableUser.id then
          reactivatedUser reactivatableUser t0 else v), []⟩ := by
  have h := reactivate_single_use [reactivatableUser] "tok456" t0 t0 reactivatableUser
    (by decide) (by decide)
    (by
      intro e he
      have he2 : (t0 + 1000 : Int) = e := Option.some.inj he
      rw [← he2]
      decide)
    (by decide)
  exact ⟨h.1, h.2.2.2.2.2.2.2.2.2⟩

/- ### Account-status check -/

/-- ASCII lowercase of one character, as `String.prototype.toLowerCase`
behaves on the ASCII range. -/
def asciiLower (c : Char) : Char :=
  if 'A' ≤ c ∧ c ≤ 'Z' then Char.ofNat (c.toNat + 32) else c

/-- Model of `email.toLowerCase()`. -/
def jsToLower (s : String) : String :=
  String.mk (s.data.map asciiLower)

/-- `Math.round(d / 1000)` for the nonnegative millisecond differences it is
applied to. -/
def jsRound1000 (d : Int) : Int := (d + 500) / 1000

/-- `Math.ceil(n / 60)` for the nonnegative second counts it is applied to. -/
def ceilMinutes (n : Int) : Int := (n + 59) / 60

/-- The `lockoutRemaining` computation of `checkAccountStatus`:
`Math.max(0, Math.round((lockoutUntil - now) / 1000))` when `lockoutUntil`
is in the future, `0` otherwise. -/
def lockoutRemainingOf (u : UserRec) (now : Int) : Int :=
  match u.lockoutUntil with
  | some lu => if now < lu then max 0 (jsRound1000 (lu - now)) else 0
  | none => 0

/-- The `tokenExpired` computation of the auto-deactivated branch of
`checkAccountStatus`: token missing, expiry missing, or expiry in the past. -/
def tokenExpiredOf (u : UserRec) (now : Int) : Bool :=
  if !jsTruthyStr u.reactivationToken then true
  else
    match u.reactivationTokenExpires with
    | none => true
    | some e => decide (e < now)

/-- The JSON body of `checkAccountStatus`. A `none` in `deactivatedAt` or
`tokenExpired` records that the field is absent from the JSON object the
code builds on that path. -/
structure StatusResponse where
  status : Nat
  success : Bool
  accountExists : Bool
  isActive : Bool
  isAutoDeactivated : Bool
  deactivatedAt : Option Int
  tokenExpired : Option Bool
  isGoogleLinked : Bool
  hasPasswordSet : Bool
  lockoutRemaining : Int
  message : String
deriving Repr, DecidableEq

/-- Model of `checkAccountStatus` (`accountController.js`): lookup by
lowercased email, then either the not-found body, the auto-deactivated body
(with `tokenExpired`, `deactivatedAt` and the computed `lockoutRemaining`),
or the manually-deactivated/active body (with `lockoutRemaining` fixed to 0
and no `tokenExpired` field). -/
def checkAccountStatus (store : List UserRec) (email : String) (now : Int) :
    StatusResponse :=
  if email = "" then
    ⟨400, false, false, false, false, none, none, false, false, 0,
     "Email is required"⟩
  else
    match store.find? (fun u => u.email == jsToLower email) with
    | none =>
        ⟨200, true, false, false, false, none, some false, false, false, 0,
         "No account found with this email."⟩
    | some user =>
        let isGoogleLinked := jsTruthyStr user.googleId
        let hasPasswordSet := jsTruthyStr user.password
        let isActive := !user.isDeactivated && !user.isAutoDeactivated
        let lockoutRemaining := lockoutRemainingOf user now
        if user.isAutoDeactivated then
          ⟨200, true, true, false, true, user.autoDeactivatedAt,
           some (tokenExpiredOf user now), isGoogleLinked, hasPasswordSet,
           lockoutRemaining,
           "This account has been deactivated due to inactivity." ++
             (if 0 < lockoutRemaining then
                " Reactivation is locked for " ++
                  toString (ceilMinutes lockoutRemaining) ++ " more minutes."
              else "")⟩
        else
          ⟨200, true, true, isActive, false, none, none, isGoogleLinked,
           hasPasswordSet, 0,
           if isActive then "Account is active."
           else "This account has been manually deactivated."⟩

/-- Replace any stored password by a fixed marker of the same truthiness:
what `checkAccountStatus` may reveal about passwords is at most their
presence. -/
def maskPassword (u : UserRec) : UserRec :=
  { u with password := if jsTruthyStr u.password then some "MASKED" else none }

theorem jsTruthyStr_maskPassword (u : UserRec) :
    jsTruthyStr (maskPassword u).password = jsTruthyStr u.password := by
  unfold maskPassword
  by_cases h : jsTruthyStr u.password = true
  · simp [h]
    decide
  · have h2 : jsTruthyStr u.password = false := by simpa using h
    simp [h2]
    decide

theorem lockoutRemainingOf_maskPassword (u : UserRec) (now : Int) :
    lockoutRemainingOf (maskPassword u) now = lockoutRemainingOf u now := rfl

theorem tokenExpiredOf_maskPassword (u : UserRec) (now : Int) :
    tokenExpiredOf (maskPassword u) now = tokenExpiredOf u now := rfl

theorem maskPassword_email (u : UserRec) : (maskPassword u).email = u.email := rfl

theorem maskPassword_googleId (u : UserRec) :
    (maskPassword u).googleId = u.googleId := rfl

theorem maskPassword_isDeactivated (u : UserRec) :
    (maskPassword u).isDeactivated = u.isDeactivated := rfl

theorem maskPassword_isAutoDeactivated (u : UserRec) :
    (maskPassword u).isAutoDeactivated = u.isAutoDeactivated := rfl

theorem maskPassword_autoDeactivatedAt (u : UserRec) :
    (maskPassword u).autoDeactivatedAt = u.autoDeactivatedAt := rfl

/- ### Claim C7 -/

/-- A manually deactivated user with a lockout timestamp in the future. -/
def lockedDeactivatedUser : UserRec :=
  { sampleActiveUser with
    id := "u3"
    email := "locked@example.com"
    isDeactivated := true
    lockoutUntil := some (t0 + 100000)
    deletedAt := some (t0 - 5000) }

/-- Claim C7 (counterexample): for a manually deactivated user whose
`lockoutUntil` lies 100 seconds in the future, `checkAccountStatus` reports
`lockoutRemaining = 0` (not a positive value derived from `lockoutUntil`)
and omits the `tokenExpired` field entirely. -/
theorem checkStatus_lockout_counterexample :
    lockedDeactivatedUser.lockoutUntil = some (t0 + 100000) ∧
    t0 < t0 + 100000 ∧
    (checkAccountStatus [lockedDeactivatedUser] "locked@example.com"
      t0).lockoutRemaining = 0 ∧
    (checkAccountStatus [lockedDeactivatedUser] "locked@example.com"
      t0).tokenExpired = none := by
  decide

/-- Claim C7 (amended): `checkAccountStatus` reports existence, the
active/auto-deactivated flags, Google-link presence and password presence for
every email; the token-expiry flag and the lockout seconds derived from
`lockoutUntil` are reported only on the auto-deactivated branch, while the
manually-deactivated/active branch hard-codes `lockoutRemaining = 0` and
omits `tokenExpired`; and the response depends on the stored password only
through its presence (masking every password changes nothing). -/
theorem checkStatus_amended (store : List UserRec) (email : String) (now : Int) :
    checkAccountStatus (store.map maskPassword) email now =
      checkAccountStatus store email now ∧
    (email ≠ "" →
      (store.find? (fun u => u.email == jsToLower email) = none →
         checkAccountStatus store email now =
           ⟨200, true, false, false, false, none, some false, false, false, 0,
            "No account found with this email."⟩) ∧
      (∀ u, store.find? (fun u => u.email == jsToLower email) = some u →
         (checkAccountStatus store email now).status = 200 ∧
         (checkAccountStatus store email now).accountExists = true ∧
         (checkAccountStatus store email now).isGoogleLinked =
           jsTruthyStr u.googleId ∧
         (checkAccountStatus store email now).hasPasswordSet =
           jsTruthyStr u.password ∧
         (checkAccountStatus store email now).isAutoDeactivated =
           u.isAutoDeactivated ∧
         (checkAccountStatus store email now).isActive =
           (!u.isDeactivated && !u.isAutoDeactivated) ∧
         (u.isAutoDeactivated = true →
            (checkAccountStatus store email now).tokenExpired =
              some (tokenExpiredOf u now) ∧
            (checkAccountStatus store email now).lockoutRemaining =
              lockoutRemainingOf u now) ∧
         (u.isAutoDeactivated = false →
            (checkAccountStatus store email now).tokenExpired = none ∧
            (checkAccountStatus store email now).lockoutRemaining = 0))) := by
  constructor
  · unfold checkAccountStatus
    by_cases he : email = ""
    · simp [he]
    · rw [if_neg he, if_neg he]
      rw [List.find?_map]
      have hpred : ((fun u : UserRec => u.email == jsToLower email) ∘ maskPassword) =
          (fun u : UserRec => u.email == jsToLower email) := rfl
      rw [hpred]
      cases hf : store.find? (fun u : UserRec => u.email == jsToLower email) with
      | none => rfl
      | some u =>
          by_cases hauto : u.isAutoDeactivated = true
          · simp [hauto, maskPassword_email, maskPassword_googleId,
              maskPassword_isDeactivated, maskPassword_isAutoDeactivated,
              maskPassword_autoDeactivatedAt, jsTruthyStr_maskPassword,
              lockoutRemainingOf_maskPassword, tokenExpiredOf_maskPassword]
          · have hauto2 : u.isAutoDeactivated = false := by simpa using hauto
            simp [hauto2, maskPassword_email, maskPassword_googleId,
              maskPassword_isDeactivated, maskPassword_isAutoDeactivated,
              maskPassword_autoDeactivatedAt, jsTruthyStr_maskPassword,
              lockoutRemainingOf_maskPassword, tokenExpiredOf_maskPassword]
  · intro he
    constructor
    · intro hf
      unfold checkAccountStatus
      rw [if_neg he, hf]
    · intro u hf
      unfold checkAccountStatus
      rw [if_neg he, hf]
      by_cases hauto : u.isAutoDeactivated = true
      · simp [hauto]
      · have hauto2 : u.isAutoDeactivated = false := by simpa using hauto
        simp [hauto2]

/-- An auto-deactivated user with a live token and a future lockout. -/
def autoDeactivatedUser : UserRec :=
  { sampleActiveUser with
    id := "u5"
    email := "auto@example.com"
    isAutoDeactivated := true
    autoDeactivatedAt := some (t0 - 10000)
    reactivationToken := some "tok789"
    reactivationTokenExpires := some (t0 + 1000)
    lockoutUntil := some (t0 + 120000) }

/-- Witness for C7 (amended) on a concrete auto-deactivated user. -/
theorem checkStatus_amended_witness :
    (checkAccountStatus [autoDeactivatedUser] "auto@example.com" t0).tokenExpired =
      some (tokenExpiredOf autoDeactivatedUser t0) ∧
    (checkAccountStatus [autoDeactivatedUser] "auto@example.com" t0).lockoutRemaining =
      lockoutRemainingOf autoDeactivatedUser t0 :=
  (((checkStatus_amended [autoDeactivatedUser] "auto@example.com" t0).2
    (by decide)).2 autoDeactivatedUser (by decide)).2.2.2.2.2.2.1 rfl

/- ### Mail dispatch (`utils/emailService.js`) -/

instance exceptDecidableEq {α β : Type} [DecidableEq α] [DecidableEq β] :
    DecidableEq (Except α β) := fun x y =>
  match x, y with
  | .ok a, .ok b =>
      if h : a = b then isTrue (by rw [h])
      else isFalse (by intro hh; cases hh; exact h rfl)
  | .ok _, .error _ => isFalse (by intro hh; cases hh)
  | .error _, .ok _ => isFalse (by intro hh; cases hh)
  | .error a, .error b =>
      if h : a = b then isTrue (by rw [h])
      else isFalse (by intro hh; cases hh; exact h rfl)

/-- Whether `pat` occurs as a contiguous substring: JavaScript
`String.prototype.includes`. -/
def hasSubstr (pat : List Char) : List Char → Bool
  | [] => pat.isEmpty
  | c :: t => pat.isPrefixOf (c :: t) || hasSubstr pat t

/-- Model of `s.includes(pat)`. -/
def jsIncludes (s pat : String) : Bool := hasSubstr pat.data s.data

/-- ASCII uppercase of one character, as `String.prototype.toUpperCase`
behaves on the ASCII range. -/
def asciiUpper (c : Char) : Char :=
  if 'a' ≤ c ∧ c ≤ 'z' then Char.ofNat (c.toNat - 32) else c

/-- Model of `String(x).toUpperCase()`. -/
def jsToUpper (s : String) : String := String.mk (s.data.map asciiUpper)

/-- The error object a nodemailer `sendMail` rejection carries, restricted to
the fields `interpretSmtpError` reads (`String(error.code || '')` and
`String(error.command || '')` are the `""` defaults). -/
structure SmtpError where
  code : String
  command : String
  responseCode : Option Nat
  message : String
deriving Repr, DecidableEq

def msgDefault : String :=
  "Failed to send email. Please try again later or contact support."

def msgAuth : String :=
  "Email service authentication failed. Please contact support."

def msgConn : String :=
  "Could not connect to the email service. Please check network or configuration."

def msgRejected : String :=
  "Email address rejected by the server. Please ensure it is valid."

def msgConfig : String :=
  "Email service is not configured correctly. Please contact support."

def msgFormat : String :=
  "There was an issue formatting the email message."

/-- Model of `interpretSmtpError` (`utils/emailService.js`): the chain of
checks producing the user-facing message. -/
def interpretSmtpError : Option SmtpError → String
  | none => msgDefault
  | some e =>
      let errorCode := jsToUpper e.code
      let command := jsToUpper e.command
      if errorCode == "EAUTH" || command == "AUTH LOGIN" ||
          e.responseCode == some 535 then
        msgAuth
      else if ["ESOCKET", "ECONNECTION", "ETIMEDOUT", "ENOTFOUND"].contains errorCode then
        msgConn
      else if (match e.responseCode with
               | some rc => [550, 551, 552, 553, 554].contains rc
               | none => false) then
        msgRejected
      else if jsIncludes e.message "Missing credentials" ||
          jsIncludes e.message "No transport method defined" then
        msgConfig
      else if errorCode == "EMESSAGE" then
        msgFormat
      else msgDefault

/-- One transporter of the ordered chain: its `options.auth.user` identity
and the outcome its `sendMail` produces for the message at hand (`ok` carries
the `messageId`). -/
structure Transporter where
  authUser : String
  outcome : Except SmtpError String
deriving Repr, DecidableEq

/-- `transporterInstance.options?.auth?.user || 'unknown'`. -/
def providerIdOf (t : Transporter) : String :=
  if t.authUser = "" then "unknown" else t.authUser

/-- The value `_sendMailWithFallback` resolves with on success. -/
structure SendSuccess where
  messageId : String
  provider : String
deriving Repr, DecidableEq

/-- `new Error('Unknown email sending failure')` as an `SmtpError`. -/
def unknownSendFailure : SmtpError := ⟨"", "", none, "Unknown email sending failure"⟩

/-- The provider loop of `_sendMailWithFallback`, carrying `lastError`. -/
def sendLoop : List Transporter → Option SmtpError → Except String SendSuccess
  | [], lastError =>
      .error (interpretSmtpError (some (lastError.getD unknownSendFailure)))
  | t :: rest, _lastError =>
      match t.outcome with
      | .ok mid => .ok ⟨mid, providerIdOf t⟩
      | .error e => sendLoop rest (some e)

/-- Model of `_sendMailWithFallback` (`utils/emailService.js`): try the
available transporters strictly in order, return on the first success, and
when every one fails throw one user-facing message interpreted from the last
error. -/
def sendMailWithFallback (ts : List Transporter) : Except String SendSuccess :=
  sendLoop ts none

theorem sendLoop_ok_of_prefix_fail (pre : List Transporter) (t : Transporter)
    (post : List Transporter) (mid : String)
    (hpre : ∀ p ∈ pre, ∃ e, p.outcome = Except.error e)
    (ht : t.outcome = Except.ok mid) :
    ∀ le, sendLoop (pre ++ t :: post) le = .ok ⟨mid, providerIdOf t⟩ := by
  induction pre with
  | nil => intro le; simp [sendLoop, ht]
  | cons p ps ih =>
      intro le
      obtain ⟨e, he⟩ := hpre p (by simp)
      simp only [List.cons_append, sendLoop, he]
      exact ih (fun q hq => hpre q (by simp [hq])) (some e)

theorem sendLoop_all_fail :
    ∀ (ts : List Transporter) (tl : Transporter), ts.getLast? = some tl →
      (∀ t ∈ ts, ∃ e, t.outcome = Except.error e) →
      ∀ le, ∃ e, tl.outcome = Except.error e ∧
        sendLoop ts le = .error (interpretSmtpError (some e))
  | [], _, hlast, _, _ => by simp at hlast
  | [t], tl, hlast, hall, le => by
      have htl : t = tl := by simpa using hlast
      obtain ⟨e, he⟩ := hall t (by simp)
      subst htl
      exact ⟨e, he, by simp [sendLoop, he]⟩
  | t :: r :: rs, tl, hlast, hall, le => by
      obtain ⟨e, he⟩ := hall t (by simp)
      have hlast2 : (r :: rs).getLast? = some tl := by
        simpa [List.getLast?_cons_cons] using hlast
      obtain ⟨e2, he2, hrec⟩ := sendLoop_all_fail (r :: rs) tl hlast2
        (fun q hq => hall q (by simp [hq])) (some e)
      refine ⟨e2, he2, ?_⟩
      show (match t.outcome with
            | Except.ok mid => Except.ok { messageId := mid, provider := providerIdOf t }
            | Except.error e3 => sendLoop (r :: rs) (some e3)) =
          Except.error (interpretSmtpError (some e2))
      rw [he]
      exact hrec

theorem interpretSmtpError_mem (e : Option SmtpError) :
    interpretSmtpError e ∈
      [msgAuth, msgConn, msgRejected, msgConfig, msgFormat, msgDefault] := by
  cases e with
  | none => simp [interpretSmtpError]
  | some err =>
      simp only [interpretSmtpError]
      split_ifs <;> simp

/- ### Per-flow delivery policies -/

/-- Model of `sendPasswordResetEmail` (`utils/emailService.js`): input check,
then the full fallback chain. -/
def sendPasswordResetEmail (paramsValid : Bool) (ts : List Transporter) :
    Except String SendSuccess :=
  if !paramsValid then
    .error "Missing required parameters for password reset email."
  else sendMailWithFallback ts

/-- Model of `sendAutoDeactivationEmail` (`utils/emailService.js`): input
check, then one `primaryTransporter.sendMail` only; a failure is re-thrown
with the interpreted message. (Template building and the stored secondary
code do not affect which transporter is used and are not modelled.) -/
def sendAutoDeactivationEmail (paramsValid : Bool) (primary : Transporter) :
    Except String String :=
  if !paramsValid then
    .error "Missing required parameters for auto-deactivation email."
  else
    match primary.outcome with
    | .ok mid => .ok mid
    | .error e =>
        .error ("Failed to send auto-deactivation email: " ++
          interpretSmtpError (some e))

/- ### Admin-alert router (`sendDeactivatedLoginAttempt`) -/

/-- The hardcoded baseline recipient list. -/
def staticAdminEmails : List String := ["ecopulse00@gmail.com"]

/-- The filter of the dynamic admin query: admin/superadmin role, verified,
neither deactivation flag set. -/
def isAdminRecipient (u : UserRec) : Bool :=
  (u.role == "admin" || u.role == "superadmin") && u.isVerified &&
    !u.isDeactivated && !u.isAutoDeactivated

/-- The emails returned by the dynamic admin query. -/
def dynamicAdminEmails (store : List UserRec) : List String :=
  (store.filter isAdminRecipient).map (fun u => u.email)

/-- The `forEach` push loop: append each email that is non-empty and not
already collected. -/
def pushUnique (acc : List String) (es : List String) : List String :=
  es.foldl (fun acc e => if e != "" && !(acc.contains e) then acc ++ [e] else acc) acc

/-- `[...new Set(l)]`: first-occurrence de-duplication. -/
def jsSetDedup : List String → List String
  | [] => []
  | e :: rest => e :: jsSetDedup (rest.filter (fun x => x != e))
termination_by l => l.length
decreasing_by
  simp_wf
  exact Nat.lt_succ_of_le (List.length_filter_le _ _)

/-- The soft result of the alert router. -/
structure AlertResult where
  success : Bool
  errorMsg : Option String
  messageId : Option String
deriving Repr, DecidableEq

/-- The alert router's observable behaviour: its returned result, the
recipients of the rich alert (if attempted) and of the plain-text fallback
(if attempted). -/
structure AlertTrace where
  result : AlertResult
  richRecipients : Option (List String)
  fallbackRecipients : Option (List String)
deriving Repr, DecidableEq

/-- Model of `sendDeactivatedLoginAttempt` (`utils/emailService.js`).
`userValid` is the `user?._id && user?.email` guard, `dbFails` whether the
`User.find` query throws, and the two `Except` parameters are the outcomes of
the primary transporter's rich send and plain-text fallback send. Every path
returns a value (the source catches all errors and resolves). -/
def sendDeactivatedLoginAttempt (store : List UserRec) (userValid : Bool)
    (dbFails : Bool) (richOutcome fallbackOutcome : Except SmtpError String) :
    AlertTrace :=
  if !userValid then
    ⟨⟨false, some "Invalid user object provided for deactivated login alert.", none⟩,
     none, none⟩
  else
    let adminEmails :=
      if dbFails then staticAdminEmails
      else jsSetDedup (pushUnique staticAdminEmails (dynamicAdminEmails store))
    if adminEmails.isEmpty then
      ⟨⟨false, some "No admin recipients configured for this alert.", none⟩,
       none, none⟩
    else
      match richOutcome with
      | .ok mid => ⟨⟨true, none, some mid⟩, some adminEmails, none⟩
      | .error _ =>
          match fallbackOutcome with
          | .ok _ =>
              ⟨⟨false, some "Failed to send full alert, minimal fallback attempted.",
                none⟩, some adminEmails, some staticAdminEmails⟩
          | .error _ =>
              ⟨⟨false, some "Failed to send primary and fallback alerts.", none⟩,
               some adminEmails, some staticAdminEmails⟩

/- ### Recipient-set lemmas -/

theorem pushUnique_mem_acc (acc es : List String) (a : String) (ha : a ∈ acc) :
    a ∈ pushUnique acc es := by
  induction es generalizing acc with
  | nil => simpa [pushUnique]
  | cons e rest ih =>
      show a ∈ pushUnique (if e != "" && !(acc.contains e) then acc ++ [e] else acc) rest
      refine ih _ ?_
      split
      · exact List.mem_append_left _ ha
      · exact ha

theorem pushUnique_mem_es (acc es : List String) (a : String)
    (ha : a ∈ es) (hne : a ≠ "") : a ∈ pushUnique acc es := by
  induction es generalizing acc with
  | nil => cases ha
  | cons e rest ih =>
      show a ∈ pushUnique (if e != "" && !(acc.contains e) then acc ++ [e] else acc) rest
      rcases List.mem_cons.mp ha with rfl | hrest
      · by_cases hc : (a != "" && !(acc.contains a)) = true
        · rw [if_pos hc]
          exact pushUnique_mem_acc _ rest a (List.mem_append_right _ (by simp))
        · rw [if_neg hc]
          have hcontains : a ∈ acc := by
            by_cases hm : a ∈ acc
            · exact hm
            · exfalso
              apply hc
              simp [bne_iff_ne, hne, hm]
          exact pushUnique_mem_acc _ rest a hcontains
      · exact ih _ hrest

theorem pushUnique_subset (acc es : List String) (a : String)
    (ha : a ∈ pushUnique acc es) : a ∈ acc ∨ a ∈ es := by
  induction es generalizing acc with
  | nil => left; simpa [pushUnique] using ha
  | cons e rest ih =>
      have ha2 : a ∈ pushUnique
          (if e != "" && !(acc.contains e) then acc ++ [e] else acc) rest := ha
      rcases ih _ ha2 with hin | hin
      · by_cases hc : (e != "" && !(acc.contains e)) = true
        · rw [if_pos hc] at hin
          rcases List.mem_append.mp hin with h1 | h1
          · exact Or.inl h1
          · right
            simp only [List.mem_singleton] at h1
            exact h1 ▸ List.mem_cons_self e rest
        · rw [if_neg hc] at hin
          exact Or.inl hin
      · exact Or.inr (List.mem_cons_of_mem _ hin)

theorem pushUnique_nodup (acc es : List String) (h : acc.Nodup) :
    (pushUnique acc es).Nodup := by
  induction es generalizing acc with
  | nil => simpa [pushUnique]
  | cons e rest ih =>
      show (pushUnique (if e != "" && !(acc.contains e) then acc ++ [e] else acc)
        rest).Nodup
      refine ih _ ?_
      by_cases hc : (e != "" && !(acc.contains e)) = true
      · rw [if_pos hc]
        have hnm : e ∉ acc := by
          obtain ⟨_, h2⟩ := Bool.and_eq_true_iff.mp hc
          simpa using h2
        refine List.nodup_append.mpr ⟨h, List.nodup_singleton e, ?_⟩
        intro x hx hx2
        simp only [List.mem_singleton] at hx2
        exact hnm (hx2 ▸ hx)
      · rw [if_neg hc]
        exact h

theorem jsSetDedup_eq_self : ∀ (l : List String), l.Nodup → jsSetDedup l = l
  | [], _ => by simp [jsSetDedup]
  | e :: rest, h => by
      have hrest : rest.Nodup := (List.nodup_cons.mp h).2
      have hne : e ∉ rest := (List.nodup_cons.mp h).1
      have hfil : rest.filter (fun x => x != e) = rest := by
        apply List.filter_eq_self.mpr
        intro x hx
        have hxe : x ≠ e := fun hh => hne (hh ▸ hx)
        simpa [bne_iff_ne] using hxe
      simp only [jsSetDedup, hfil]
      rw [jsSetDedup_eq_self rest hrest]

theorem isEmpty_false_of_mem {l : List String} {a : String} (h : a ∈ l) :
    l.isEmpty = false := by
  cases l with
  | nil => cases h
  | cons x xs => rfl

/- ### Claim C3 -/

/-- A connection failure as nodemailer reports it. -/
def connError : SmtpError := ⟨"ETIMEDOUT", "CONN", none, "connect ETIMEDOUT"⟩

/-- A missing-credentials failure as nodemailer reports it. -/
def configError : SmtpError := ⟨"", "API", none, "Missing credentials for PLAIN"⟩

/-- Claim C3 (counterexample to the five-class classification): when every
provider fails and the last error is a missing-credentials error, the raised
user-facing message is the configuration-error message, which is none of the
five claimed classes (authentication, connection/network, recipient rejected,
malformed message, unknown). -/
theorem sendWithFallback_config_class_counterexample :
    sendMailWithFallback
        [⟨"primary@ecopulse.com", Except.error connError⟩,
         ⟨"backup@ecopulse.com", Except.error configError⟩] =
      .error msgConfig ∧
    msgConfig ∉ ([msgAuth, msgConn, msgRejected, msgFormat, msgDefault] :
      List String) := by
  decide

/-- Claim C3 (amended): `sendMailWithFallback` tries providers strictly in
list order and returns on the first success, reporting that provider's
identity, independently of what comes after it; when every provider fails it
raises exactly one user-facing message interpreted from the last attempt's
error, and that message always belongs to the six classes {authentication,
connection/network, recipient rejected, configuration, malformed message,
unknown}. -/
theorem sendWithFallback_spec :
    (∀ (pre : List Transporter) (t : Transporter) (post : List Transporter)
       (mid : String),
       (∀ p ∈ pre, ∃ e, p.outcome = Except.error e) →
       t.outcome = Except.ok mid →
       sendMailWithFallback (pre ++ t :: post) = .ok ⟨mid, providerIdOf t⟩) ∧
    (∀ (ts : List Transporter) (tl : Transporter), ts.getLast? = some tl →
       (∀ t ∈ ts, ∃ e, t.outcome = Except.error e) →
       ∃ e, tl.outcome = Except.error e ∧
         sendMailWithFallback ts = .error (interpretSmtpError (some e)) ∧
         interpretSmtpError (some e) ∈
           [msgAuth, msgConn, msgRejected, msgConfig, msgFormat, msgDefault]) := by
  constructor
  · intro pre t post mid hpre ht
    exact sendLoop_ok_of_prefix_fail pre t post mid hpre ht none
  · intro ts tl hlast hall
    obtain ⟨e, he, hl⟩ := sendLoop_all_fail ts tl hlast hall none
    exact ⟨e, he, hl, interpretSmtpError_mem (some e)⟩

/-- Witness for C3 (amended): the first provider fails, the second succeeds,
and the success is attributed to the second provider. -/
theorem sendWithFallback_spec_witness :
    sendMailWithFallback
        [⟨"primary@ecopulse.com", Except.error connError⟩,
         ⟨"backup@ecopulse.com", Except.ok "mid-1"⟩] =
      .ok ⟨"mid-1", "backup@ecopulse.com"⟩ := by
  have h := sendWithFallback_spec.1 [⟨"primary@ecopulse.com", Except.error connError⟩]
    ⟨"backup@ecopulse.com", Except.ok "mid-1"⟩ [] "mid-1"
    (by
      intro p hp
      rw [List.mem_singleton] at hp
      subst hp
      exact ⟨connError, rfl⟩) rfl
  rw [List.singleton_append] at h
  exact h.trans (by decide)

/- ### Claim C2 -/

/-- Claim C2 (counterexample): with the primary transporter failing and the
backup succeeding, the password-reset flow succeeds through the chain, but
the auto-deactivation notice — which the claim says also uses the full
chain — fails outright, because it only ever calls the primary transporter. -/
theorem security_flows_not_all_fallback :
    sendPasswordResetEmail true
        [⟨"primary@ecopulse.com", Except.error connError⟩,
         ⟨"backup@ecopulse.com", Except.ok "mid-2"⟩] =
      .ok ⟨"mid-2", "backup@ecopulse.com"⟩ ∧
    sendAutoDeactivationEmail true ⟨"primary@ecopulse.com", Except.error connError⟩ =
      .error ("Failed to send auto-deactivation email: " ++ msgConn) := by
  constructor
  · decide
  · decide

/-- Claim C2 (amended): only the password-reset flow runs the full fallback
chain (first success wins, attributed to its provider); the auto-deactivation
notice propagates the primary transporter's failure no matter what other
transporters exist, and the deactivated-login admin alert likewise reports a
soft failure whenever the primary transporter's rich send fails. -/
theorem mail_policy_spec :
    (∀ (pre : List Transporter) (t : Transporter) (post : List Transporter)
       (mid : String),
       (∀ p ∈ pre, ∃ e, p.outcome = Except.error e) →
       t.outcome = Except.ok mid →
       sendPasswordResetEmail true (pre ++ t :: post) = .ok ⟨mid, providerIdOf t⟩) ∧
    (∀ (primary : Transporter) (e : SmtpError),
       primary.outcome = Except.error e →
       sendAutoDeactivationEmail true primary =
         .error ("Failed to send auto-deactivation email: " ++
           interpretSmtpError (some e))) ∧
    (∀ (store : List UserRec) (dbFails : Bool) (fb : Except SmtpError String)
       (e : SmtpError),
       (sendDeactivatedLoginAttempt store true dbFails (Except.error e)
         fb).result.success = false) := by
  refine ⟨?_, ?_, ?_⟩
  · intro pre t post mid hpre ht
    show sendMailWithFallback (pre ++ t :: post) = _
    exact sendLoop_ok_of_prefix_fail pre t post mid hpre ht none
  · intro primary e he
    unfold sendAutoDeactivationEmail
    simp [he]
  · intro store dbFails fb e
    have hpu : jsSetDedup (pushUnique staticAdminEmails (dynamicAdminEmails store)) =
        pushUnique staticAdminEmails (dynamicAdminEmails store) :=
      jsSetDedup_eq_self _ (pushUnique_nodup staticAdminEmails _ (by decide))
    have hmem : "ecopulse00@gmail.com" ∈
        jsSetDedup (pushUnique staticAdminEmails (dynamicAdminEmails store)) := by
      rw [hpu]
      exact pushUnique_mem_acc _ _ _ (by decide)
    have hne := isEmpty_false_of_mem hmem
    cases dbFails with
    | true => cases fb with
        | ok m => rfl
        | error e2 => rfl
    | false => cases fb with
        | ok m => simp [sendDeactivatedLoginAttempt, hne]
        | error e2 => simp [sendDeactivatedLoginAttempt, hne]

/-- Witness for C2 (amended) on the auto-deactivation conjunct. -/
theorem mail_policy_spec_witness :
    sendAutoDeactivationEmail true ⟨"primary@ecopulse.com", Except.error configError⟩ =
      .error ("Failed to send auto-deactivation email: " ++
        interpretSmtpError (some configError)) :=
  mail_policy_spec.2.1 ⟨"primary@ecopulse.com", Except.error configError⟩
    configError rfl

/- ### Claim C9 -/

/-- Claim C9: the admin-alert router computes its rich-alert recipient set as
the baseline list unioned with the (non-empty-address) verified,
non-deactivated admin users, de-duplicated; when the dynamic query fails it
degrades to the baseline list alone; on a rich-send failure it attempts
exactly one plain-text fallback addressed to the baseline list only; and in
every outcome it returns a soft result (a success, or a recorded error
message, never an exception). -/
theorem alert_router_spec (store : List UserRec) (dbFails : Bool)
    (rich fb : Except SmtpError String) :
    (dbFails = true →
       (sendDeactivatedLoginAttempt store true dbFails rich fb).richRecipients =
         some staticAdminEmails) ∧
    (dbFails = false →
       ∃ R, (sendDeactivatedLoginAttempt store true dbFails rich fb).richRecipients =
           some R ∧
         R.Nodup ∧
         (∀ a ∈ staticAdminEmails, a ∈ R) ∧
         (∀ a ∈ dynamicAdminEmails store, a ≠ "" → a ∈ R) ∧
         (∀ a ∈ R, a ∈ staticAdminEmails ∨ a ∈ dynamicAdminEmails store)) ∧
    (∀ mid, rich = Except.ok mid →
       (sendDeactivatedLoginAttempt store true dbFails rich fb).result =
         ⟨true, none, some mid⟩ ∧
       (sendDeactivatedLoginAttempt store true dbFails rich fb).fallbackRecipients =
         none) ∧
    (∀ e, rich = Except.error e →
       (sendDeactivatedLoginAttempt store true dbFails rich fb).fallbackRecipients =
         some staticAdminEmails ∧
       (sendDeactivatedLoginAttempt store true dbFails rich fb).result.success =
         false ∧
       ((sendDeactivatedLoginAttempt store true dbFails rich
         fb).result.errorMsg).isSome = true) := by
  have hpu : jsSetDedup (pushUnique staticAdminEmails (dynamicAdminEmails store)) =
      pushUnique staticAdminEmails (dynamicAdminEmails store) :=
    jsSetDedup_eq_self _ (pushUnique_nodup staticAdminEmails _ (by decide))
  have hmem : "ecopulse00@gmail.com" ∈
      jsSetDedup (pushUnique staticAdminEmails (dynamicAdminEmails store)) := by
    rw [hpu]
    exact pushUnique_mem_acc _ _ _ (by decide)
  have hne := isEmpty_false_of_mem hmem
  refine ⟨?_, ?_, ?_, ?_⟩
  · intro hdb
    subst hdb
    cases rich with
    | ok mid => rfl
    | error e => cases fb with
        | ok m => rfl
        | error e2 => rfl
  · intro hdb
    subst hdb
    refine ⟨jsSetDedup (pushUnique staticAdminEmails (dynamicAdminEmails store)),
      ?_, ?_, ?_, ?_, ?_⟩
    · cases rich with
      | ok mid => simp [sendDeactivatedLoginAttempt, hne]
      | error e => cases fb with
          | ok m => simp [sendDeactivatedLoginAttempt, hne]
          | error e2 => simp [sendDeactivatedLoginAttempt, hne]
    · rw [hpu]
      exact pushUnique_nodup _ _ (by decide)
    · intro a ha
      rw [hpu]
      exact pushUnique_mem_acc _ _ _ ha
    · intro a ha hne2
      rw [hpu]
      exact pushUnique_mem_es _ _ _ ha hne2
    · intro a ha
      rw [hpu] at ha
      exact pushUnique_subset _ _ _ ha
  · intro mid hr
    subst hr
    cases dbFails with
    | true => exact ⟨rfl, rfl⟩
    | false =>
        constructor <;> simp [sendDeactivatedLoginAttempt, hne]
  · intro e hr
    subst hr
    cases dbFails with
    | true => cases fb with
        | ok m => exact ⟨rfl, rfl, rfl⟩
        | error e2 => exact ⟨rfl, rfl, rfl⟩
    | false => cases fb with
        | ok m => refine ⟨?_, ?_, ?_⟩ <;> simp [sendDeactivatedLoginAttempt, hne]
        | error e2 => refine ⟨?_, ?_, ?_⟩ <;> simp [sendDeactivatedLoginAttempt, hne]

/-- A verified admin user. -/
def sampleAdminUser : UserRec :=
  { sampleActiveUser with
    id := "u6"
    email := "admin@example.com"
    role := "admin" }

/-- Witness for C9: rich send fails, the single fallback goes to the baseline
list only, and the router reports a soft failure. -/
theorem alert_router_spec_witness :
    (sendDeactivatedLoginAttempt [sampleAdminUser] true false
        (Except.error connError) (Except.ok "mid-9")).fallbackRecipients =
      some staticAdminEmails ∧
    (sendDeactivatedLoginAttempt [sampleAdminUser] true false
        (Except.error connError) (Except.ok "mid-9")).result.success = false ∧
    ((sendDeactivatedLoginAttempt [sampleAdminUser] true false
        (Except.error connError) (Except.ok "mid-9")).result.errorMsg).isSome =
      true :=
  (alert_router_spec [sampleAdminUser] false (Except.error connError)
    (Except.ok "mid-9")).2.2.2 connError rfl
